import Mathlib

/-!
Verification development for the aetheria report collector's capture harness
(src/capture_hard.py).  The in-page interceptors installed by INJECT_JS
(the fetch hook, the JSON.parse hook), the out-of-runtime network observer
(on_response) and the session driver (main) are embedded as executable Lean
functions, and the specification's testable properties are settled against
them.  The ambient JSON text decoder (the JS JSON.parse primitive and the
Python json.loads routine) is a runtime primitive outside the repository, so
the embeddings take it as an explicit parameter of type String -> Option JVal,
where none models a decode exception.
-/

/-- JSON values as produced by a text-to-structure decode.  The harness never
inspects payload internals; only object-shapedness and identity matter. -/
inductive JVal where
  | jnull : JVal
  | jbool : Bool → JVal
  | jnum : Int → JVal
  | jstr : String → JVal
  | jarr : List JVal → JVal
  | jobj : List (String × JVal) → JVal

/-- One entry of the json capture channel: a source tag, an origin URL and a
payload, mirroring the objects pushed by the hooks and the network observer. -/
structure JEntry where
  src : String
  url : String
  body : JVal

/-- ASCII lowercasing, mirroring Python str.lower and JS toLowerCase on the
header and URL values the harness inspects. -/
def lowerStr (s : String) : String :=
  String.mk (s.toList.map Char.toLower)

/-- Is the first list of characters a prefix of the second. -/
def listPre : List Char → List Char → Bool
  | [], _ => true
  | _ :: _, [] => false
  | a :: as, b :: bs => a == b && listPre as bs

/-- Does the pattern occur as a contiguous run inside the second list. -/
def subAt : List Char → List Char → Bool
  | pat, [] => listPre pat []
  | pat, c :: rest => listPre pat (c :: rest) || subAt pat rest

/-- Substring test: pat occurs inside s (Python in, JS String.includes). -/
def strHas (s pat : String) : Bool := subAt pat.toList s.toList

/-- Suffix test (Python str.endswith). -/
def strEnds (s suf : String) : Bool :=
  listPre suf.toList.reverse s.toList.reverse

/-- Character membership in a string (JS String.includes on a one-char pattern). -/
def strHasChar (s : String) (c : Char) : Bool := s.toList.contains c

/-- The opening brace character. -/
def lbr : Char := Char.ofNat 123

/-- The closing brace character. -/
def rbr : Char := Char.ofNat 125

/-- A network response as the fetch hook sees it: final URL, content-type
header value, and raw body text. -/
structure Resp where
  url : String
  contentType : String
  body : String
deriving DecidableEq

/-- Result of one run of the wrapped fetch: the value handed back to the
page's caller, the json-channel entries appended (asynchronously, via the
cloned response), and whether a speculative non-JSON decode was attempted. -/
structure FetchOut where
  returned : Resp
  appended : List JEntry
  specAttempt : Bool

/-- Embedding of the fetch hook of INJECT_JS (src/capture_hard.py lines
41-68).  The content-type header is lowercased and tested for the substring
application/json; on the JSON branch the cloned response body is decoded and
pushed tagged fetch (a decode rejection is swallowed by the catch).  On the
other branch, when the text is nonempty and contains both an opening and a
closing brace character, a speculative decode is attempted and pushed tagged
fetch-text on success only.  The original response is returned unaltered on
every path; the decode work happens on a clone, so the return is also not
delayed by it. -/
def fetchWrap (parse : String → Option JVal) (res : Resp) : FetchOut :=
  if strHas (lowerStr res.contentType) "application/json" then
    match parse res.body with
    | some b => ⟨res, [⟨"fetch", res.url, b⟩], false⟩
    | none => ⟨res, [], false⟩
  else
    if !res.body.isEmpty && strHasChar res.body lbr && strHasChar res.body rbr then
      match parse res.body with
      | some g => ⟨res, [⟨"fetch-text", res.url, g⟩], true⟩
      | none => ⟨res, [], true⟩
    else ⟨res, [], false⟩

/-- Is the decoded value object-shaped in the sense of the JSON.parse hook's
test (out and typeof out equals object): objects and arrays qualify, null and
the primitive shapes do not. -/
def objectShaped : JVal → Bool
  | JVal.jobj _ => true
  | JVal.jarr _ => true
  | _ => false

/-- Embedding of the JSON.parse hook of INJECT_JS (src/capture_hard.py lines
97-109).  A failed decode propagates to the caller exactly as with the
unwrapped primitive (modelled by none); a successful decode of an
object-shaped value additionally pushes an entry with source tag JSON.parse
and url field inline, and the decoded value is returned unchanged. -/
def jsonParseWrap (parse : String → Option JVal) (s : String) :
    Option (JVal × List JEntry) :=
  match parse s with
  | none => none
  | some out =>
    some (out, if objectShaped out then [⟨"JSON.parse", "inline", out⟩] else [])

/-- Does the URL indicate a JSON resource in the sense of on_response: the
lowercased URL ends with .json or contains .json? . -/
def jsonUrlHint (url : String) : Bool :=
  strEnds (lowerStr url) ".json" || strHas (lowerStr url) ".json?"

/-- Embedding of the out-of-runtime network observer on_response
(src/capture_hard.py lines 224-239).  If the lowercased content-type contains
application/json, the body is decoded and appended tagged network; a decode
failure there raises out of res.json() and is swallowed by the outer except,
dropping the response.  Otherwise, if the URL hints at a JSON resource, the
body text is decoded with a fallback to the raw text string, and appended
tagged network-text. -/
def onResp (parse : String → Option JVal) (url ctHeader text : String)
    (log : List JEntry) : List JEntry :=
  if strHas (lowerStr ctHeader) "application/json" then
    match parse text with
    | some b => log ++ [⟨"network", url, b⟩]
    | none => log
  else
    if jsonUrlHint url then
      log ++ [⟨"network-text", url,
        match parse text with
        | some v => v
        | none => JVal.jstr text⟩]
    else log

/-- Modelled from the spec's words, for the refinement comparison of C6 only:
the text contains a balanced brace pair, read as an opening brace followed
later by a closing brace.  The code's own trigger is embedded inside
fetchWrap and tests mere presence of each brace character. -/
def balancedBracePair : List Char → Bool
  | [] => false
  | c :: rest => (c == lbr && rest.contains rbr) || balancedBracePair rest

/-- C1: for every fetch whose response content-type is JSON and whose body
decodes to a value b, the wrapper appends exactly one json-channel entry
tagged fetch whose payload is b, and the page's caller receives the original
response object unaltered (and undelayed: the decode runs on a clone). -/
theorem c1_fetch_json_appends_and_returns_unaltered
    (parse : String → Option JVal) (res : Resp) (b : JVal)
    (hct : strHas (lowerStr res.contentType) "application/json" = true)
    (hp : parse res.body = some b) :
    fetchWrap parse res = ⟨res, [⟨"fetch", res.url, b⟩], false⟩ := by
  simp [fetchWrap, hct, hp]

/-- Concrete JSON decoder behaviour for the C1 witness. -/
def parseC1 : String → Option JVal :=
  fun s => if s = "\x7b\x7d" then some (JVal.jobj []) else none

/-- Concrete response for the C1 witness. -/
def respC1 : Resp := ⟨"https://h/api", "Application/JSON; charset=utf-8", "\x7b\x7d"⟩

/-- Witness for C1 at a concrete JSON-returning response. -/
theorem c1_witness :
    strHas (lowerStr respC1.contentType) "application/json" = true ∧
    parseC1 respC1.body = some (JVal.jobj []) ∧
    fetchWrap parseC1 respC1 =
      ⟨respC1, [⟨"fetch", "https://h/api", JVal.jobj []⟩], false⟩ :=
  ⟨by decide, rfl,
   c1_fetch_json_appends_and_returns_unaltered parseC1 respC1 (JVal.jobj [])
     (by decide) rfl⟩

/-- Concrete JSON decoder behaviour for the C5 claim: the harness page decodes
the empty-object text. -/
def parseC5 : String → Option JVal :=
  fun s => if s = "\x7b\x7d" then some (JVal.jobj []) else none

/-- C5 counterexample: a successful object-shaped decode appends an entry
whose source tag is the literal JSON.parse, not inline; inline is only the
entry's url field, so the claim that the source tag is inline fails. -/
theorem c5_counterexample :
    jsonParseWrap parseC5 "\x7b\x7d" =
      some (JVal.jobj [], [⟨"JSON.parse", "inline", JVal.jobj []⟩]) ∧
    JEntry.src ⟨"JSON.parse", "inline", JVal.jobj []⟩ ≠ "inline" :=
  ⟨rfl, by decide⟩

/-- C5 (amended): every successful decode of an object-shaped value returns
the decoded value unchanged to the caller and appends exactly one json-channel
entry whose source tag is the literal JSON.parse and whose url field is
inline. -/
theorem c5_amended_inline_decode_tagged_json_parse
    (parse : String → Option JVal) (s : String) (v : JVal)
    (hp : parse s = some v) (ho : objectShaped v = true) :
    jsonParseWrap parse s = some (v, [⟨"JSON.parse", "inline", v⟩]) := by
  simp [jsonParseWrap, hp, ho]

/-- Witness for the amended C5 at a concrete inline decode. -/
theorem c5_witness :
    parseC5 "\x7b\x7d" = some (JVal.jobj []) ∧
    objectShaped (JVal.jobj []) = true ∧
    jsonParseWrap parseC5 "\x7b\x7d" =
      some (JVal.jobj [], [⟨"JSON.parse", "inline", JVal.jobj []⟩]) :=
  ⟨rfl, rfl,
   c5_amended_inline_decode_tagged_json_parse parseC5 "\x7b\x7d" (JVal.jobj [])
     rfl rfl⟩

/-- Concrete decoder for the C6 counterexample: on the four-character body
consisting of a quoted closing-then-opening brace, the JSON decoder succeeds
and yields the two-character string, exactly as the JS primitive does. -/
def parseC6 : String → Option JVal :=
  fun s => if s = "\x22\x7d\x7b\x22" then some (JVal.jstr "\x7d\x7b") else none

/-- Concrete non-JSON response for the C6 counterexample: content-type
text/html, body a quoted string whose closing brace precedes its opening
brace. -/
def respC6 : Resp := ⟨"https://h/p", "text/html", "\x22\x7d\x7b\x22"⟩

/-- C6 counterexample: on a body with no balanced brace pair (the closing
brace precedes the opening one) the wrapper still attempts the speculative
decode — the code's trigger is mere presence of both brace characters — and
the decode even succeeds here, appending a fetch-text entry. -/
theorem c6_counterexample :
    (fetchWrap parseC6 respC6).specAttempt = true ∧
    balancedBracePair respC6.body.toList = false ∧
    (fetchWrap parseC6 respC6).appended =
      [⟨"fetch-text", "https://h/p", JVal.jstr "\x7d\x7b"⟩] :=
  ⟨by decide, by decide, rfl⟩

/-- C6 (amended): for a response whose content-type is not JSON, the wrapper
attempts a speculative decode exactly when the text body is nonempty and
contains at least one opening and at least one closing brace character, in
either order; it appends a fetch-text entry exactly on decode success, drops
decode failures silently, and always returns the original response. -/
theorem c6_amended_speculative_trigger
    (parse : String → Option JVal) (res : Resp)
    (hct : strHas (lowerStr res.contentType) "application/json" = false) :
    ((fetchWrap parse res).specAttempt
        = (!res.body.isEmpty && strHasChar res.body lbr && strHasChar res.body rbr)) ∧
    (parse res.body = none → (fetchWrap parse res).appended = []) ∧
    (∀ g, parse res.body = some g → (fetchWrap parse res).specAttempt = true →
      (fetchWrap parse res).appended = [⟨"fetch-text", res.url, g⟩]) ∧
    (fetchWrap parse res).returned = res := by
  by_cases hb : (!res.body.isEmpty && strHasChar res.body lbr && strHasChar res.body rbr) = true
  · cases hp : parse res.body <;>
      simp [fetchWrap, hct, hb, hp]
  · rw [Bool.not_eq_true] at hb
    cases hp : parse res.body <;>
      simp [fetchWrap, hct, hb, hp]

/-- Concrete decoder for the C6 witness. -/
def parseC6w : String → Option JVal :=
  fun s => if s = "\x7ba\x7d" then none else none

/-- Concrete response for the C6 witness: brace-containing text/plain body
that fails to decode. -/
def respC6w : Resp := ⟨"https://h/q", "text/plain", "\x7ba\x7d"⟩

/-- Witness for the amended C6 at a concrete brace-containing body that fails
to decode: the attempt happens and nothing is appended. -/
theorem c6_witness :
    strHas (lowerStr respC6w.contentType) "application/json" = false ∧
    ((fetchWrap parseC6w respC6w).specAttempt
        = (!respC6w.body.isEmpty && strHasChar respC6w.body lbr && strHasChar respC6w.body rbr)) ∧
    (parseC6w respC6w.body = none → (fetchWrap parseC6w respC6w).appended = []) ∧
    (∀ g, parseC6w respC6w.body = some g → (fetchWrap parseC6w respC6w).specAttempt = true →
      (fetchWrap parseC6w respC6w).appended = [⟨"fetch-text", respC6w.url, g⟩]) ∧
    (fetchWrap parseC6w respC6w).returned = respC6w :=
  ⟨by decide, c6_amended_speculative_trigger parseC6w respC6w (by decide)⟩

/-- Decoder behaviour for the C10 counterexample: the body is not valid JSON,
so the decode fails. -/
def parseC10 : String → Option JVal := fun _ => none

/-- C10 counterexample: a response whose URL indicates a JSON resource but
whose content-type header is application/json and whose body fails to decode
is dropped entirely by the observer — the application/json branch is taken
first, its decode raises, and the outer except swallows it, so no
network-text entry is appended. -/
theorem c10_counterexample :
    jsonUrlHint "https://h/a.json" = true ∧
    parseC10 "nope" = none ∧
    onResp parseC10 "https://h/a.json" "application/json" "nope" [] = [] :=
  ⟨by decide, rfl, rfl⟩

/-- C10 (amended): in the network observer, a response whose content-type does
not contain application/json, whose URL indicates a JSON resource (lowercased
URL ends with .json or contains .json?), and whose body fails JSON decoding is
not dropped: an entry tagged network-text is appended whose body is the raw
undecoded text string. -/
theorem c10_amended_network_text_fallback
    (parse : String → Option JVal) (url ctHeader text : String)
    (log : List JEntry)
    (hct : strHas (lowerStr ctHeader) "application/json" = false)
    (hurl : jsonUrlHint url = true)
    (hp : parse text = none) :
    onResp parse url ctHeader text log =
      log ++ [⟨"network-text", url, JVal.jstr text⟩] := by
  simp [onResp, hct, hurl, hp]

/-- Witness for the amended C10 at a concrete undecodable .json response. -/
theorem c10_witness :
    strHas (lowerStr "text/html") "application/json" = false ∧
    jsonUrlHint "https://h/b.json?v=1" = true ∧
    parseC10 "oops" = none ∧
    onResp parseC10 "https://h/b.json?v=1" "text/html" "oops" [] =
      [] ++ [⟨"network-text", "https://h/b.json?v=1", JVal.jstr "oops"⟩] :=
  ⟨by decide, by decide, rfl,
   c10_amended_network_text_fallback parseC10 "https://h/b.json?v=1" "text/html"
     "oops" [] (by decide) (by decide) rfl⟩

/-- One chart-configuration event of the charts channel (the echarts and
Chart.js hooks push a library tag with the observed configuration value). -/
structure ChartEv where
  lib : String
  cfg : JVal

/-- One canvas text-draw event of the canvasText channel. -/
structure CanvasEv where
  kind : String
  text : String
  x : Int
  y : Int
  font : String
  style : String
deriving DecidableEq

/-- The artifact files the session driver writes into the captures directory. -/
inductive Artifact where
  | xhr : Nat → Artifact
  | chart : Nat → Artifact
  | canvasText : Artifact
  | storageLocal : Artifact
  | storageSession : Artifact
  | pageHtml : Artifact
  | screenshot : Artifact
  | summary : Artifact
deriving DecidableEq

/-- Observable events of one session run of main, in program order. -/
inductive Ev where
  | launch : Ev
  | launchCtx : Ev
  | addInit : Ev
  | traceStart : Ev
  | newPage : Ev
  | goto : Ev
  | pulse : Nat → Ev
  | pollRead : Nat → Ev
  | readCanvas : Ev
  | readLS : Ev
  | readSS : Ev
  | write : Artifact → Ev
  | traceStop : Ev
  | ctxClose : Ev
  | browserClose : Ev
  | pwStop : Ev
deriving DecidableEq

/-- Unhandled exceptions that can escape main. -/
inductive Err where
  | navTimeout : Err
  | writeErr : Artifact → Err
  | traceStopErr : Err
deriving DecidableEq

/-- The environment a session runs against: which fallible operations raise,
and what each channel snapshot returns at each moment.  Function-valued
fields are indexed by the polling iteration. -/
structure Env where
  url : String
  reqCount : Nat
  gotoRaises : Bool
  pollRaises1 : Nat → Bool
  pollRaises2 : Nat → Bool
  pollCharts : Nat → List ChartEv
  pollJson : Nat → List JEntry
  canvasRaises : Bool
  canvasSnap : List CanvasEv
  lsRaises : Bool
  lsSnap : List (String × String)
  ssRaises : Bool
  ssSnap : List (String × String)
  netLog : List JEntry
  writeFails : Artifact → Bool
  traceStopRaises : Bool

/-- One iteration of the polling loop body (src/capture_hard.py lines
258-266): the charts channel is read first, then the json channel; an
exception anywhere in the try block keeps the values already assigned and
skips the break test; otherwise the loop breaks when either read is
non-empty. -/
def pollIter (env : Env) (cur : List ChartEv × List JEntry) (i : Nat) :
    (List ChartEv × List JEntry) × Bool :=
  if env.pollRaises1 i then (cur, false)
  else if env.pollRaises2 i then ((env.pollCharts i, cur.2), false)
  else ((env.pollCharts i, env.pollJson i),
        !(env.pollCharts i).isEmpty || !(env.pollJson i).isEmpty)

/-- The polling loop, fuel-bounded exactly as the range bound of the source:
returns the final (charts, injected json) values and the trace of read
attempts. -/
def pollAux (env : Env) :
    (List ChartEv × List JEntry) → Nat → Nat →
      ((List ChartEv × List JEntry) × List Ev)
  | cur, _, 0 => (cur, [])
  | cur, i, Nat.succ fuel =>
    if (pollIter env cur i).2 then ((pollIter env cur i).1, [Ev.pollRead i])
    else ((pollAux env (pollIter env cur i).1 (i + 1) fuel).1,
          Ev.pollRead i :: (pollAux env (pollIter env cur i).1 (i + 1) fuel).2)

/-- The whole polling phase: starts from empty values, iterates at most 75
times (src/capture_hard.py line 258). -/
def pollResult (env : Env) : (List ChartEv × List JEntry) × List Ev :=
  pollAux env ([], []) 0 75

/-- The charts value the driver holds after polling. -/
def chartsOf (env : Env) : List ChartEv := (pollResult env).1.1

/-- The injected json value the driver holds after polling. -/
def ijsonOf (env : Env) : List JEntry := (pollResult env).1.2

/-- The canvasText snapshot (an exception yields the empty default, lines
269-273). -/
def canvasOf (env : Env) : List CanvasEv :=
  if env.canvasRaises then [] else env.canvasSnap

/-- The localStorage snapshot (an exception yields the empty dict, lines
275-278). -/
def lsOf (env : Env) : List (String × String) :=
  if env.lsRaises then [] else env.lsSnap

/-- The sessionStorage snapshot (an exception yields the empty dict, lines
279-282). -/
def ssOf (env : Env) : List (String × String) :=
  if env.ssRaises then [] else env.ssSnap

/-- The merged evidence list (line 287): the network observer's log followed
by the page's json channel, order preserved within each source, no
deduplication. -/
def mergedOf (env : Env) : List JEntry := env.netLog ++ ijsonOf env

/-- One step of the output phase of main: an artifact write that is guarded by
its own try/except, an unguarded one whose exception escapes, or one of the
teardown calls. -/
inductive Step where
  | unguardedWrite : Artifact → Step
  | guardedWrite : Artifact → Step
  | traceStop : Step
  | ctxClose : Step
  | browserClose : Step
deriving DecidableEq

/-- The output phase of main in program order (src/capture_hard.py lines
286-330): one numbered json artifact per merged entry and one numbered chart
artifact per chart entry (unguarded), the canvas-text artifact only when the
canvasText list is non-empty (unguarded), the two storage artifacts
(unguarded), the page markup and the screenshot (each guarded by try/except
pass), the trace stop-and-flush (unguarded), the summary (unguarded), then
context close and browser close. -/
def writeScript (merged : List JEntry) (charts : List ChartEv)
    (canvas : List CanvasEv) : List Step :=
  (List.range merged.length).map (fun i => Step.unguardedWrite (Artifact.xhr i)) ++
  (List.range charts.length).map (fun i => Step.unguardedWrite (Artifact.chart i)) ++
  (if canvas.isEmpty then [] else [Step.unguardedWrite Artifact.canvasText]) ++
  [Step.unguardedWrite Artifact.storageLocal,
   Step.unguardedWrite Artifact.storageSession,
   Step.guardedWrite Artifact.pageHtml,
   Step.guardedWrite Artifact.screenshot,
   Step.traceStop,
   Step.unguardedWrite Artifact.summary,
   Step.ctxClose,
   Step.browserClose]

/-- Runs the output-phase steps in order: a guarded failure is swallowed and
the run continues; an unguarded failure aborts the remaining steps and
surfaces the error. -/
def runSteps (env : Env) : List Step → List Ev × Option Err
  | [] => ([], none)
  | Step.unguardedWrite a :: rest =>
    if env.writeFails a then ([], some (Err.writeErr a))
    else (Ev.write a :: (runSteps env rest).1, (runSteps env rest).2)
  | Step.guardedWrite a :: rest =>
    if env.writeFails a then runSteps env rest
    else (Ev.write a :: (runSteps env rest).1, (runSteps env rest).2)
  | Step.traceStop :: rest =>
    if env.traceStopRaises then ([], some Err.traceStopErr)
    else (Ev.traceStop :: (runSteps env rest).1, (runSteps env rest).2)
  | Step.ctxClose :: rest =>
    (Ev.ctxClose :: (runSteps env rest).1, (runSteps env rest).2)
  | Step.browserClose :: rest =>
    (Ev.browserClose :: (runSteps env rest).1, (runSteps env rest).2)

/-- The event trace and outcome of the output phase for a given environment. -/
def wrOf (env : Env) : List Ev × Option Err :=
  runSteps env (writeScript (mergedOf env) (chartsOf env) (canvasOf env))

/-- The summary record of lines 311-323 restricted to its environment-derived
fields; the wall-clock timestamp and duration are real-time data and are not
modelled. -/
structure Summary where
  url : String
  req : Nat
  json : Nat
  chartConfigs : Nat
  canvasText : Nat
  localStorageKeys : Nat
  sessionStorageKeys : Nat
deriving DecidableEq

/-- The summary value main computes from what it captured. -/
def mkSummary (env : Env) : Summary :=
  { url := env.url
    req := env.reqCount
    json := (mergedOf env).length
    chartConfigs := (chartsOf env).length
    canvasText := (canvasOf env).length
    localStorageKeys := (lsOf env).length
    sessionStorageKeys := (ssOf env).length }

/-- The observable outcome of one session: the event trace, the unhandled
error (if any) escaping main, and the summary record (present exactly when
the summary artifact write executed). -/
structure RunResult where
  events : List Ev
  err : Option Err
  summary : Option Summary

/-- The fixed acquisition events of main (lines 190-206): browser launch,
persistent context launch, init-script installation, trace start, new page. -/
def setupEvs : List Ev :=
  [Ev.launch, Ev.launchCtx, Ev.addInit, Ev.traceStart, Ev.newPage]

/-- The eight synthetic interaction pulses (lines 247-254); each pulse body is
guarded by try/except, so all eight attempts always happen. -/
def pulseEvs : List Ev := (List.range 8).map Ev.pulse

/-- Embedding of main (src/capture_hard.py lines 189-330).  page.goto is not
guarded: a navigation timeout raises out of main, and only the sync_playwright
context manager unwinds (modelled as pwStop); the in-code teardown
(tracing.stop, ctx.close, browser.close) runs only at the end of the straight
line body, after the output phase, and an unguarded output-phase failure
likewise escapes with only pwStop executed. -/
def runMain (env : Env) : RunResult :=
  if env.gotoRaises then
    { events := setupEvs ++ [Ev.pwStop]
      err := some Err.navTimeout
      summary := none }
  else
    { events := setupEvs ++ [Ev.goto] ++ pulseEvs ++ (pollResult env).2 ++
        [Ev.readCanvas, Ev.readLS, Ev.readSS] ++ (wrOf env).1 ++ [Ev.pwStop]
      err := (wrOf env).2
      summary :=
        if Ev.write Artifact.summary ∈ (wrOf env).1 then some (mkSummary env)
        else none }

/-- Occurrence count of an event in a trace. -/
def countEv (e : Ev) : List Ev → Nat
  | [] => 0
  | x :: xs => (if x = e then 1 else 0) + countEv e xs

/-- countEv distributes over concatenation. -/
theorem countEv_append (e : Ev) (l1 l2 : List Ev) :
    countEv e (l1 ++ l2) = countEv e l1 + countEv e l2 := by
  induction l1 with
  | nil => simp [countEv]
  | cons x xs ih => simp [countEv, ih]; omega

/-- Absent events count zero. -/
theorem countEv_zero (e : Ev) (l : List Ev) (h : e ∉ l) : countEv e l = 0 := by
  induction l with
  | nil => rfl
  | cons x xs ih =>
    rw [List.mem_cons, not_or] at h
    have hx : ¬ x = e := fun hh => h.1 hh.symm
    simp [countEv, hx, ih h.2]

/-- A list is non-isEmpty exactly when it is not nil. -/
theorem isEmpty_false_iff {α : Type} (l : List α) : l.isEmpty = false ↔ l ≠ [] := by
  cases l <;> simp

/-- A list is isEmpty exactly when it is nil. -/
theorem isEmpty_true_iff {α : Type} (l : List α) : l.isEmpty = true ↔ l = [] := by
  cases l <;> simp

/-- A polling iteration succeeds with a signal: neither channel read raises
and at least one of the two reads is non-empty.  This is exactly the condition
under which the loop body reaches its break. -/
def pollOkSignal (env : Env) (i : Nat) : Prop :=
  env.pollRaises1 i = false ∧ env.pollRaises2 i = false ∧
    (env.pollCharts i ≠ [] ∨ env.pollJson i ≠ [])

/-- The break flag of one polling iteration is exactly pollOkSignal. -/
theorem pollIter_break (env : Env) (cur : List ChartEv × List JEntry) (i : Nat) :
    (pollIter env cur i).2 = true ↔ pollOkSignal env i := by
  by_cases h1 : env.pollRaises1 i
  · simp [pollIter, pollOkSignal, h1]
  · by_cases h2 : env.pollRaises2 i
    · simp [pollIter, pollOkSignal, h1, h2]
    · simp [pollIter, pollOkSignal, h1, h2, Bool.or_eq_true,
        Bool.not_eq_true', isEmpty_false_iff]

/-- The polling loop performs at most fuel read iterations. -/
theorem pollAux_len (env : Env) (fuel : Nat) :
    ∀ cur i, (pollAux env cur i fuel).2.length ≤ fuel := by
  induction fuel with
  | zero => intro cur i; simp [pollAux]
  | succ n ih =>
    intro cur i
    by_cases hb : (pollIter env cur i).2
    · simp [pollAux, hb]
    · simp [pollAux, hb]
      exact ih _ _

/-- Every event the polling loop emits is a channel-read attempt. -/
theorem pollAux_evs (env : Env) (fuel : Nat) :
    ∀ cur i e, e ∈ (pollAux env cur i fuel).2 → ∃ k, e = Ev.pollRead k := by
  induction fuel with
  | zero => intro cur i e h; simp [pollAux] at h
  | succ n ih =>
    intro cur i e h
    by_cases hb : (pollIter env cur i).2
    · simp [pollAux, hb] at h
      exact ⟨i, h⟩
    · simp [pollAux, hb] at h
      rcases h with h | h
      · exact ⟨i, h⟩
      · exact ih _ _ _ h

/-- Every event of the whole polling phase is a channel-read attempt. -/
theorem pollResult_evs (env : Env) (e : Ev) (h : e ∈ (pollResult env).2) :
    ∃ k, e = Ev.pollRead k :=
  pollAux_evs env 75 ([], []) 0 e h

/-- The polling loop exits at the first iteration whose reads succeed with a
non-empty signal: the loop then performed exactly that iteration count plus
one read attempts. -/
theorem pollAux_break_at (env : Env) :
    ∀ (fuel start i : Nat) (cur : List ChartEv × List JEntry),
      start ≤ i → i < start + fuel → pollOkSignal env i →
      (∀ j, start ≤ j → j < i → ¬ pollOkSignal env j) →
      (pollAux env cur start fuel).2.length = i - start + 1 := by
  intro fuel
  induction fuel with
  | zero => intro start i cur h1 h2 _ _; omega
  | succ n ih =>
    intro start i cur hsi hlt hsig hmin
    by_cases he : start = i
    · subst he
      have hb : (pollIter env cur start).2 = true :=
        (pollIter_break env cur start).mpr hsig
      simp [pollAux, hb]
    · have hlt' : start < i := lt_of_le_of_ne hsi he
      have hnb : ¬ pollOkSignal env start := hmin start le_rfl hlt'
      have hb : (pollIter env cur start).2 = false := by
        cases hq : (pollIter env cur start).2 with
        | false => rfl
        | true => exact absurd ((pollIter_break env cur start).mp hq) hnb
      have hrec := ih (start + 1) i (pollIter env cur start).1 hlt' (by omega)
        hsig (fun j hj1 hj2 => hmin j (by omega) hj2)
      simp [pollAux, hb, hrec]
      omega

/-- Every event the output phase emits is an artifact write, the trace stop,
or one of the two close calls. -/
theorem runSteps_evs (env : Env) :
    ∀ steps e, e ∈ (runSteps env steps).1 →
      (∃ a, e = Ev.write a) ∨ e = Ev.traceStop ∨ e = Ev.ctxClose ∨
        e = Ev.browserClose := by
  intro steps
  induction steps with
  | nil => intro e h; simp [runSteps] at h
  | cons s rest ih =>
    intro e h
    cases s with
    | unguardedWrite a =>
      by_cases hf : env.writeFails a
      · simp [runSteps, hf] at h
      · simp [runSteps, hf] at h
        rcases h with h | h
        · exact Or.inl ⟨a, h⟩
        · exact ih e h
    | guardedWrite a =>
      by_cases hf : env.writeFails a
      · simp [runSteps, hf] at h
        exact ih e h
      · simp [runSteps, hf] at h
        rcases h with h | h
        · exact Or.inl ⟨a, h⟩
        · exact ih e h
    | traceStop =>
      by_cases hf : env.traceStopRaises
      · simp [runSteps, hf] at h
      · simp [runSteps, hf] at h
        rcases h with h | h
        · exact Or.inr (Or.inl h)
        · exact ih e h
    | ctxClose =>
      simp [runSteps] at h
      rcases h with h | h
      · exact Or.inr (Or.inr (Or.inl h))
      · exact ih e h
    | browserClose =>
      simp [runSteps] at h
      rcases h with h | h
      · exact Or.inr (Or.inr (Or.inr h))
      · exact ih e h

/-- The event a single output step contributes when it does not abort the
run: an unguarded write always writes here, a guarded write is skipped
exactly when it fails. -/
def stepEvOpt (env : Env) : Step → Option Ev
  | Step.unguardedWrite a => some (Ev.write a)
  | Step.guardedWrite a => if env.writeFails a then none else some (Ev.write a)
  | Step.traceStop => some Ev.traceStop
  | Step.ctxClose => some Ev.ctxClose
  | Step.browserClose => some Ev.browserClose

/-- A step cannot abort the run: unguarded writes and the trace stop succeed;
guarded writes and close calls never abort. -/
def stepOk (env : Env) : Step → Prop
  | Step.unguardedWrite a => env.writeFails a = false
  | Step.traceStop => env.traceStopRaises = false
  | _ => True

/-- When no step aborts, the output phase emits exactly the per-step events
and no error. -/
theorem runSteps_ok (env : Env) :
    ∀ steps, (∀ s ∈ steps, stepOk env s) →
      runSteps env steps = (steps.filterMap (stepEvOpt env), none) := by
  intro steps
  induction steps with
  | nil => intro _; rfl
  | cons s rest ih =>
    intro h
    have hs := h s (List.mem_cons_self s rest)
    have hrest := ih (fun t ht => h t (List.mem_cons_of_mem s ht))
    cases s with
    | unguardedWrite a =>
      have hf : env.writeFails a = false := hs
      simp [runSteps, hf, List.filterMap_cons, stepEvOpt, hrest]
    | guardedWrite a =>
      by_cases hf : env.writeFails a <;>
        simp [runSteps, hf, List.filterMap_cons, stepEvOpt, hrest]
    | traceStop =>
      have hf : env.traceStopRaises = false := hs
      simp [runSteps, hf, List.filterMap_cons, stepEvOpt, hrest]
    | ctxClose => simp [runSteps, List.filterMap_cons, stepEvOpt, hrest]
    | browserClose => simp [runSteps, List.filterMap_cons, stepEvOpt, hrest]

/-- Unguarded writes pass through filterMap as plain write events. -/
theorem filterMap_unguarded (env : Env) (f : Nat → Artifact) (l : List Nat) :
    (l.map (fun i => Step.unguardedWrite (f i))).filterMap (stepEvOpt env) =
      l.map (fun i => Ev.write (f i)) := by
  induction l with
  | nil => rfl
  | cons x xs ih => simp [List.filterMap_cons, stepEvOpt, ih]

/-- Variant of filterMap_unguarded in the composed form simp produces. -/
theorem filterMap_comp_unguarded (env : Env) (f : Nat → Artifact) (l : List Nat) :
    l.filterMap (stepEvOpt env ∘ fun i => Step.unguardedWrite (f i)) =
      l.map (fun i => Ev.write (f i)) := by
  induction l with
  | nil => rfl
  | cons x xs ih => simp [List.filterMap_cons, stepEvOpt, Function.comp, ih]

/-- Every unguarded step of the output script succeeds when every artifact
other than the two guarded ones writes cleanly and the trace stop succeeds. -/
theorem writeScript_ok (env : Env) (m : List JEntry) (c : List ChartEv)
    (v : List CanvasEv)
    (hw : ∀ a, a ≠ Artifact.pageHtml → a ≠ Artifact.screenshot →
      env.writeFails a = false)
    (ht : env.traceStopRaises = false) :
    ∀ s ∈ writeScript m c v, stepOk env s := by
  have hx : ∀ i : Nat, env.writeFails (Artifact.xhr i) = false :=
    fun i => hw _ (by simp) (by simp)
  have hch : ∀ i : Nat, env.writeFails (Artifact.chart i) = false :=
    fun i => hw _ (by simp) (by simp)
  have hcv : env.writeFails Artifact.canvasText = false := hw _ (by simp) (by simp)
  have hsl : env.writeFails Artifact.storageLocal = false := hw _ (by simp) (by simp)
  have hss : env.writeFails Artifact.storageSession = false := hw _ (by simp) (by simp)
  have hsm : env.writeFails Artifact.summary = false := hw _ (by simp) (by simp)
  intro s hsmem
  by_cases hv : v.isEmpty
  · simp [writeScript, hv, List.mem_append, List.mem_map, List.mem_range] at hsmem
    rcases hsmem with ⟨i, hi, rfl⟩ | ⟨i, hi, rfl⟩ | rfl | rfl | rfl | rfl | rfl | rfl | rfl | rfl <;>
      simp [stepOk, hx, hch, hsl, hss, hsm, ht]
  · simp [writeScript, hv, List.mem_append, List.mem_map, List.mem_range] at hsmem
    rcases hsmem with ⟨i, hi, rfl⟩ | ⟨i, hi, rfl⟩ | rfl | rfl | rfl | rfl | rfl | rfl | rfl | rfl | rfl <;>
      simp [stepOk, hx, hch, hcv, hsl, hss, hsm, ht]

/-- The events of a clean output phase, in order. -/
def okWriteEvs (env : Env) : List Ev :=
  (List.range (mergedOf env).length).map (fun i => Ev.write (Artifact.xhr i)) ++
  (List.range (chartsOf env).length).map (fun i => Ev.write (Artifact.chart i)) ++
  (if (canvasOf env).isEmpty then [] else [Ev.write Artifact.canvasText]) ++
  [Ev.write Artifact.storageLocal, Ev.write Artifact.storageSession] ++
  (if env.writeFails Artifact.pageHtml then [] else [Ev.write Artifact.pageHtml]) ++
  (if env.writeFails Artifact.screenshot then [] else [Ev.write Artifact.screenshot]) ++
  [Ev.traceStop, Ev.write Artifact.summary, Ev.ctxClose, Ev.browserClose]

/-- When every unguarded write and the trace stop succeed, the output phase
runs to completion and emits okWriteEvs. -/
theorem wrOf_ok (env : Env)
    (hw : ∀ a, a ≠ Artifact.pageHtml → a ≠ Artifact.screenshot →
      env.writeFails a = false)
    (ht : env.traceStopRaises = false) :
    wrOf env = (okWriteEvs env, none) := by
  rw [wrOf, runSteps_ok env _ (writeScript_ok env _ _ _ hw ht)]
  by_cases hp : env.writeFails Artifact.pageHtml <;>
  by_cases hs : env.writeFails Artifact.screenshot <;>
  by_cases hv : (canvasOf env).isEmpty <;>
    simp [writeScript, okWriteEvs, hv, hp, hs, List.filterMap_append,
      List.filterMap_cons, stepEvOpt, filterMap_unguarded, filterMap_comp_unguarded]

/-- On a run where navigation succeeds, every unguarded write succeeds and
the trace stop succeeds, main completes: the full event trace in program
order, no escaping error, and the summary record present. -/
theorem runMain_ok (env : Env) (hg : env.gotoRaises = false)
    (hw : ∀ a, a ≠ Artifact.pageHtml → a ≠ Artifact.screenshot →
      env.writeFails a = false)
    (ht : env.traceStopRaises = false) :
    (runMain env).events = setupEvs ++ [Ev.goto] ++ pulseEvs ++
      (pollResult env).2 ++ [Ev.readCanvas, Ev.readLS, Ev.readSS] ++
      okWriteEvs env ++ [Ev.pwStop] ∧
    (runMain env).err = none ∧
    (runMain env).summary = some (mkSummary env) := by
  have hwr := wrOf_ok env hw ht
  have hmem : Ev.write Artifact.summary ∈ okWriteEvs env := by
    simp [okWriteEvs]
  refine ⟨?_, ?_, ?_⟩ <;> simp [runMain, hg, hwr, hmem]

/-- A benign environment: navigation succeeds, every channel is empty, every
write succeeds. -/
def baseEnv : Env :=
  { url := "https://h/report"
    reqCount := 0
    gotoRaises := false
    pollRaises1 := fun _ => false
    pollRaises2 := fun _ => false
    pollCharts := fun _ => []
    pollJson := fun _ => []
    canvasRaises := false
    canvasSnap := []
    lsRaises := false
    lsSnap := []
    ssRaises := false
    ssSnap := []
    netLog := []
    writeFails := fun _ => false
    traceStopRaises := false }

/-- An environment whose navigation times out. -/
def envNavFail : Env := { baseEnv with gotoRaises := true }

/-- A sample captured json entry. -/
def jX : JEntry := ⟨"network", "https://h/api", JVal.jobj []⟩

/-- A sample canvas text-draw event. -/
def cvX : CanvasEv := ⟨"fill", "42", 10, 20, "12px sans", "black"⟩

/-- C2 counterexample: when navigation raises, main surfaces the error with
no trace stop, no context close and no browser close having been attempted —
the guaranteed-release discipline the claim asserts does not hold on this
exit path. -/
theorem c2_counterexample :
    (runMain envNavFail).err = some Err.navTimeout ∧
    Ev.traceStop ∉ (runMain envNavFail).events ∧
    Ev.ctxClose ∉ (runMain envNavFail).events ∧
    Ev.browserClose ∉ (runMain envNavFail).events := by decide

/-- C2 (amended): on the straight-line path where navigation succeeds, every
unguarded artifact write succeeds and the trace stop succeeds (the guarded
page-markup and screenshot writes may fail), teardown happens exactly once
and in order — the trace is stopped and flushed before the context and
browser are closed, and no teardown event occurs earlier.  On a thrown
mid-session error the in-code teardown is not attempted before the error
surfaces (see the counterexample); only the sync_playwright context manager
unwinds. -/
theorem c2_amended_teardown (env : Env) (hg : env.gotoRaises = false)
    (hw : ∀ a, a ≠ Artifact.pageHtml → a ≠ Artifact.screenshot →
      env.writeFails a = false)
    (ht : env.traceStopRaises = false) :
    ∃ pre, (runMain env).events = pre ++ [Ev.traceStop,
        Ev.write Artifact.summary, Ev.ctxClose, Ev.browserClose, Ev.pwStop] ∧
      Ev.traceStop ∉ pre ∧ Ev.ctxClose ∉ pre ∧ Ev.browserClose ∉ pre ∧
      (runMain env).err = none := by
  obtain ⟨hev, herr, -⟩ := runMain_ok env hg hw ht
  refine ⟨setupEvs ++ [Ev.goto] ++ pulseEvs ++ (pollResult env).2 ++
      [Ev.readCanvas, Ev.readLS, Ev.readSS] ++
      (List.range (mergedOf env).length).map (fun i => Ev.write (Artifact.xhr i)) ++
      (List.range (chartsOf env).length).map (fun i => Ev.write (Artifact.chart i)) ++
      (if (canvasOf env).isEmpty then [] else [Ev.write Artifact.canvasText]) ++
      [Ev.write Artifact.storageLocal, Ev.write Artifact.storageSession] ++
      (if env.writeFails Artifact.pageHtml then [] else [Ev.write Artifact.pageHtml]) ++
      (if env.writeFails Artifact.screenshot then []
        else [Ev.write Artifact.screenshot]),
    ?_, ?_, ?_, ?_, herr⟩
  · rw [hev]
    simp [okWriteEvs, List.append_assoc]
  · intro h
    by_cases hcv : (canvasOf env).isEmpty <;>
    by_cases hph : env.writeFails Artifact.pageHtml <;>
    by_cases hsc : env.writeFails Artifact.screenshot <;>
      simp [setupEvs, pulseEvs, hcv, hph, hsc] at h <;>
      rcases pollResult_evs env _ h with ⟨k, hk⟩ <;> simp at hk
  · intro h
    by_cases hcv : (canvasOf env).isEmpty <;>
    by_cases hph : env.writeFails Artifact.pageHtml <;>
    by_cases hsc : env.writeFails Artifact.screenshot <;>
      simp [setupEvs, pulseEvs, hcv, hph, hsc] at h <;>
      rcases pollResult_evs env _ h with ⟨k, hk⟩ <;> simp at hk
  · intro h
    by_cases hcv : (canvasOf env).isEmpty <;>
    by_cases hph : env.writeFails Artifact.pageHtml <;>
    by_cases hsc : env.writeFails Artifact.screenshot <;>
      simp [setupEvs, pulseEvs, hcv, hph, hsc] at h <;>
      rcases pollResult_evs env _ h with ⟨k, hk⟩ <;> simp at hk

/-- An environment whose guarded page-markup write fails while everything
unguarded succeeds: the straight-line path still completes. -/
def envC2w : Env :=
  { baseEnv with
    writeFails := fun a => decide (a = Artifact.pageHtml) }

/-- Witness for the amended C2 at a run whose guarded page-markup write
fails: teardown still happens exactly once and in order. -/
theorem c2_witness :
    envC2w.gotoRaises = false ∧
    (∀ a, a ≠ Artifact.pageHtml → a ≠ Artifact.screenshot →
      envC2w.writeFails a = false) ∧
    envC2w.traceStopRaises = false ∧
    (∃ pre, (runMain envC2w).events = pre ++ [Ev.traceStop,
        Ev.write Artifact.summary, Ev.ctxClose, Ev.browserClose, Ev.pwStop] ∧
      Ev.traceStop ∉ pre ∧ Ev.ctxClose ∉ pre ∧ Ev.browserClose ∉ pre ∧
      (runMain envC2w).err = none) :=
  ⟨rfl, fun _ h1 _ => decide_eq_false h1, rfl,
   c2_amended_teardown envC2w rfl (fun _ h1 _ => decide_eq_false h1) rfl⟩

/-- C3 counterexample: on a navigation timeout the run stops at the
acquisition events — no pulse, no polling read, no snapshot read and no
artifact write happens, and no summary is produced, contradicting the claim
that capture still proceeds in degraded form. -/
theorem c3_counterexample :
    (runMain envNavFail).events =
      [Ev.launch, Ev.launchCtx, Ev.addInit, Ev.traceStart, Ev.newPage, Ev.pwStop] ∧
    (runMain envNavFail).err = some Err.navTimeout ∧
    (runMain envNavFail).summary = none := by decide

/-- C3 (amended): when navigation does not reach its success signal within
the hard timeout, the timeout error propagates uncaught out of main: the
session aborts immediately after the acquisition events, with no pulses, no
polling, no snapshot reads, no artifact writes and no summary. -/
theorem c3_amended_nav_timeout_aborts (env : Env) (hg : env.gotoRaises = true) :
    (runMain env).events =
      [Ev.launch, Ev.launchCtx, Ev.addInit, Ev.traceStart, Ev.newPage, Ev.pwStop] ∧
    (runMain env).err = some Err.navTimeout ∧
    (runMain env).summary = none := by
  refine ⟨?_, ?_, ?_⟩ <;> simp [runMain, hg, setupEvs]

/-- Witness for the amended C3 at a concrete timed-out environment. -/
theorem c3_witness :
    envNavFail.gotoRaises = true ∧
    ((runMain envNavFail).events =
      [Ev.launch, Ev.launchCtx, Ev.addInit, Ev.traceStart, Ev.newPage, Ev.pwStop] ∧
    (runMain envNavFail).err = some Err.navTimeout ∧
    (runMain envNavFail).summary = none) :=
  ⟨rfl, c3_amended_nav_timeout_aborts envNavFail rfl⟩

/-- C4: the polling loop performs at most 75 read iterations at its fixed
cadence, exits at the first iteration whose reads succeed with a non-empty
charts or json value (so it always terminates within the iteration budget
even when no signal ever appears), and after the loop the canvasText channel
and the two storage scopes are each read exactly once, unconditionally. -/
theorem c4_polling_bounded_and_single_snapshots (env : Env)
    (hg : env.gotoRaises = false) :
    (pollResult env).2.length ≤ 75 ∧
    (∀ i, i < 75 → pollOkSignal env i →
      (∀ j, j < i → ¬ pollOkSignal env j) → (pollResult env).2.length = i + 1) ∧
    countEv Ev.readCanvas (runMain env).events = 1 ∧
    countEv Ev.readLS (runMain env).events = 1 ∧
    countEv Ev.readSS (runMain env).events = 1 := by
  have hev : (runMain env).events = setupEvs ++ [Ev.goto] ++ pulseEvs ++
      (pollResult env).2 ++ [Ev.readCanvas, Ev.readLS, Ev.readSS] ++
      (wrOf env).1 ++ [Ev.pwStop] := by
    simp [runMain, hg]
  have hcount : ∀ e : Ev, (∀ k, e ≠ Ev.pollRead k) → (∀ a, e ≠ Ev.write a) →
      e ≠ Ev.traceStop → e ≠ Ev.ctxClose → e ≠ Ev.browserClose →
      countEv e setupEvs = 0 → countEv e pulseEvs = 0 →
      countEv e [Ev.goto] = 0 → countEv e [Ev.pwStop] = 0 →
      countEv e (runMain env).events =
        countEv e [Ev.readCanvas, Ev.readLS, Ev.readSS] := by
    intro e hpr hwa ht1 ht2 ht3 h1 h2 h3 h4
    have hpoll : countEv e (pollResult env).2 = 0 := by
      apply countEv_zero
      intro hm
      rcases pollResult_evs env e hm with ⟨k, hk⟩
      exact hpr k hk
    have hwrc : countEv e (wrOf env).1 = 0 := by
      apply countEv_zero
      intro hm
      rcases runSteps_evs env
          (writeScript (mergedOf env) (chartsOf env) (canvasOf env)) e
          (by simpa [wrOf] using hm) with ⟨a, ha⟩ | h | h | h
      · exact hwa a ha
      · exact ht1 h
      · exact ht2 h
      · exact ht3 h
    rw [hev]
    simp only [countEv_append]
    rw [h1, h2, h3, h4, hpoll, hwrc]
    omega
  refine ⟨pollAux_len env 75 ([], []) 0, ?_, ?_, ?_, ?_⟩
  · intro i hi hsig hmin
    have hb := pollAux_break_at env 75 0 i ([], []) (Nat.zero_le i) (by omega)
      hsig (fun j _ hj2 => hmin j hj2)
    simpa [pollResult] using hb
  · rw [hcount Ev.readCanvas (fun k h => by simp at h) (fun a h => by simp at h)
      (by simp) (by simp) (by simp) (by decide) (by decide) (by decide) (by decide)]
    decide
  · rw [hcount Ev.readLS (fun k h => by simp at h) (fun a h => by simp at h)
      (by simp) (by simp) (by simp) (by decide) (by decide) (by decide) (by decide)]
    decide
  · rw [hcount Ev.readSS (fun k h => by simp at h) (fun a h => by simp at h)
      (by simp) (by simp) (by simp) (by decide) (by decide) (by decide) (by decide)]
    decide

/-- An environment whose json channel first becomes non-empty at polling
iteration 2. -/
def envC4 : Env := { baseEnv with pollJson := fun i => if i = 2 then [jX] else [] }

/-- Witness for C4 at a concrete environment that signals at iteration 2. -/
theorem c4_witness :
    envC4.gotoRaises = false ∧
    ((pollResult envC4).2.length ≤ 75 ∧
    (∀ i, i < 75 → pollOkSignal envC4 i →
      (∀ j, j < i → ¬ pollOkSignal envC4 j) → (pollResult envC4).2.length = i + 1) ∧
    countEv Ev.readCanvas (runMain envC4).events = 1 ∧
    countEv Ev.readLS (runMain envC4).events = 1 ∧
    countEv Ev.readSS (runMain envC4).events = 1) :=
  ⟨rfl, c4_polling_bounded_and_single_snapshots envC4 rfl⟩

/-- An environment whose canvas-text artifact write fails while the canvas
channel is non-empty. -/
def envC7 : Env :=
  { baseEnv with
    canvasSnap := [cvX]
    writeFails := fun a => decide (a = Artifact.canvasText) }

/-- C7 counterexample: a failing canvas-text artifact write is unguarded, so
it aborts the whole output phase — the storage, page, screenshot, trace and
summary artifacts are never written — contradicting mutual independence of
artifact writes. -/
theorem c7_counterexample :
    (runMain envC7).err = some (Err.writeErr Artifact.canvasText) ∧
    Ev.write Artifact.storageLocal ∉ (runMain envC7).events ∧
    Ev.write Artifact.storageSession ∉ (runMain envC7).events ∧
    Ev.write Artifact.summary ∉ (runMain envC7).events ∧
    Ev.traceStop ∉ (runMain envC7).events := by decide

/-- C7 (amended): only the page-markup and screenshot writes are guarded by
their own try/except.  In particular a failing screenshot write does not
block anything: the earlier json, chart and storage artifacts are written,
and the later trace stop and summary write still happen; but a failure of any
unguarded write aborts all subsequent output (see the counterexample). -/
theorem c7_amended_guarded_writes_only (env : Env) (hg : env.gotoRaises = false)
    (hsc : env.writeFails Artifact.screenshot = true)
    (hw : ∀ a, a ≠ Artifact.screenshot → env.writeFails a = false)
    (ht : env.traceStopRaises = false) :
    (runMain env).err = none ∧
    Ev.write Artifact.screenshot ∉ (runMain env).events ∧
    Ev.write Artifact.summary ∈ (runMain env).events ∧
    Ev.write Artifact.storageLocal ∈ (runMain env).events ∧
    Ev.write Artifact.storageSession ∈ (runMain env).events ∧
    Ev.write Artifact.pageHtml ∈ (runMain env).events ∧
    (∀ i, i < (mergedOf env).length →
      Ev.write (Artifact.xhr i) ∈ (runMain env).events) ∧
    (∀ i, i < (chartsOf env).length →
      Ev.write (Artifact.chart i) ∈ (runMain env).events) ∧
    Ev.traceStop ∈ (runMain env).events := by
  have hph : env.writeFails Artifact.pageHtml = false := hw _ (by simp)
  obtain ⟨hev, herr, -⟩ := runMain_ok env hg (fun a _ hb => hw a hb) ht
  refine ⟨herr, ?_, ?_, ?_, ?_, ?_, ?_, ?_, ?_⟩ <;> rw [hev]
  · intro h
    by_cases hcv : (canvasOf env).isEmpty <;>
      simp [setupEvs, pulseEvs, okWriteEvs, hcv, hsc, hph] at h <;>
      rcases pollResult_evs env _ h with ⟨k, hk⟩ <;> simp at hk
  · have hx : Ev.write Artifact.summary ∈ okWriteEvs env := by simp [okWriteEvs]
    simp [List.mem_append]
    tauto
  · have hx : Ev.write Artifact.storageLocal ∈ okWriteEvs env := by
      simp [okWriteEvs]
    simp [List.mem_append]
    tauto
  · have hx : Ev.write Artifact.storageSession ∈ okWriteEvs env := by
      simp [okWriteEvs]
    simp [List.mem_append]
    tauto
  · have hx : Ev.write Artifact.pageHtml ∈ okWriteEvs env := by
      simp [okWriteEvs, hph]
    simp [List.mem_append]
    tauto
  · intro i hi
    have hx : Ev.write (Artifact.xhr i) ∈ okWriteEvs env := by
      simp [okWriteEvs, List.mem_append, List.mem_map, List.mem_range]
      tauto
    simp [List.mem_append]
    tauto
  · intro i hi
    have hx : Ev.write (Artifact.chart i) ∈ okWriteEvs env := by
      simp [okWriteEvs, List.mem_append, List.mem_map, List.mem_range]
      tauto
    simp [List.mem_append]
    tauto
  · have hx : Ev.traceStop ∈ okWriteEvs env := by simp [okWriteEvs]
    simp [List.mem_append]
    tauto

/-- An environment whose screenshot write fails and nothing else does. -/
def envC7w : Env :=
  { baseEnv with
    netLog := [jX]
    writeFails := fun a => decide (a = Artifact.screenshot) }

/-- Witness for the amended C7 at a concrete environment with a failing
screenshot write. -/
theorem c7_witness :
    envC7w.gotoRaises = false ∧
    envC7w.writeFails Artifact.screenshot = true ∧
    envC7w.traceStopRaises = false ∧
    ((runMain envC7w).err = none ∧
    Ev.write Artifact.screenshot ∉ (runMain envC7w).events ∧
    Ev.write Artifact.summary ∈ (runMain envC7w).events ∧
    Ev.write Artifact.storageLocal ∈ (runMain envC7w).events ∧
    Ev.write Artifact.storageSession ∈ (runMain envC7w).events ∧
    Ev.write Artifact.pageHtml ∈ (runMain envC7w).events ∧
    (∀ i, i < (mergedOf envC7w).length →
      Ev.write (Artifact.xhr i) ∈ (runMain envC7w).events) ∧
    (∀ i, i < (chartsOf envC7w).length →
      Ev.write (Artifact.chart i) ∈ (runMain envC7w).events) ∧
    Ev.traceStop ∈ (runMain envC7w).events) :=
  ⟨rfl, by decide, rfl,
   c7_amended_guarded_writes_only envC7w rfl (by decide)
     (fun a ha => decide_eq_false ha) rfl⟩

/-- An environment whose session-scoped storage artifact write fails. -/
def envC8 : Env :=
  { baseEnv with
    netLog := [jX]
    writeFails := fun a => decide (a = Artifact.storageLocal) }

/-- C8 counterexample: a session whose storage artifact write fails surfaces
the error and produces no summary record at all, contradicting the claim that
a summary is always produced at the end of a session. -/
theorem c8_counterexample :
    (runMain envC8).summary = none ∧
    (runMain envC8).err = some (Err.writeErr Artifact.storageLocal) := by decide

/-- C8 (amended): whenever the session completes without an unhandled error
(navigation succeeds, all unguarded writes and the trace stop succeed; the
guarded page-markup and screenshot writes may fail), a summary record is
produced whose json count is the length of the merged list obtained by
concatenating the network-layer log with the in-page json channel (per-source
order preserved, no deduplication), and whose other per-channel counts are
the lengths of the respective captured collections — including an all-empty
summary when nothing was observed. -/
theorem c8_amended_summary_on_clean_run (env : Env) (hg : env.gotoRaises = false)
    (hw : ∀ a, a ≠ Artifact.pageHtml → a ≠ Artifact.screenshot →
      env.writeFails a = false)
    (ht : env.traceStopRaises = false) :
    (runMain env).summary = some
      { url := env.url
        req := env.reqCount
        json := (env.netLog ++ ijsonOf env).length
        chartConfigs := (chartsOf env).length
        canvasText := (canvasOf env).length
        localStorageKeys := (lsOf env).length
        sessionStorageKeys := (ssOf env).length } := by
  obtain ⟨-, -, hs⟩ := runMain_ok env hg hw ht
  rw [hs]
  simp [mkSummary, mergedOf]

/-- An environment with observed data on several channels whose guarded
screenshot write fails: the session still completes without an unhandled
error. -/
def envC8w : Env :=
  { baseEnv with
    netLog := [jX]
    reqCount := 3
    canvasSnap := [cvX]
    lsSnap := [("k", "v")]
    writeFails := fun a => decide (a = Artifact.screenshot) }

/-- Witness for the amended C8 at a concrete session that completes despite
its guarded screenshot write failing. -/
theorem c8_witness :
    envC8w.gotoRaises = false ∧
    (∀ a, a ≠ Artifact.pageHtml → a ≠ Artifact.screenshot →
      envC8w.writeFails a = false) ∧
    envC8w.traceStopRaises = false ∧
    (runMain envC8w).summary = some
      { url := envC8w.url
        req := envC8w.reqCount
        json := (envC8w.netLog ++ ijsonOf envC8w).length
        chartConfigs := (chartsOf envC8w).length
        canvasText := (canvasOf envC8w).length
        localStorageKeys := (lsOf envC8w).length
        sessionStorageKeys := (ssOf envC8w).length } :=
  ⟨rfl, fun _ _ h2 => decide_eq_false h2, rfl,
   c8_amended_summary_on_clean_run envC8w rfl (fun _ _ h2 => decide_eq_false h2)
     rfl⟩

/-- C9 counterexample: a clean session that captured no canvas text writes
the two storage artifacts and the summary but no canvas-text artifact — the
canvas-text file is not persisted on every session. -/
theorem c9_counterexample :
    (runMain baseEnv).err = none ∧
    Ev.write Artifact.canvasText ∉ (runMain baseEnv).events ∧
    Ev.write Artifact.storageLocal ∈ (runMain baseEnv).events ∧
    Ev.write Artifact.storageSession ∈ (runMain baseEnv).events ∧
    Ev.write Artifact.summary ∈ (runMain baseEnv).events := by decide

/-- C9 (amended): on a session that completes without an unhandled error
(the guarded page-markup and screenshot writes may fail), the canvas-text
artifact is persisted exactly when the captured canvas-text list is
non-empty, while the two storage-snapshot artifacts are always written. -/
theorem c9_amended_canvas_artifact_conditional (env : Env)
    (hg : env.gotoRaises = false)
    (hw : ∀ a, a ≠ Artifact.pageHtml → a ≠ Artifact.screenshot →
      env.writeFails a = false)
    (ht : env.traceStopRaises = false) :
    (Ev.write Artifact.canvasText ∈ (runMain env).events ↔ canvasOf env ≠ []) ∧
    Ev.write Artifact.storageLocal ∈ (runMain env).events ∧
    Ev.write Artifact.storageSession ∈ (runMain env).events := by
  obtain ⟨hev, -, -⟩ := runMain_ok env hg hw ht
  refine ⟨?_, ?_, ?_⟩ <;> rw [hev]
  · by_cases hcv : (canvasOf env).isEmpty
    · have hnil : canvasOf env = [] := (isEmpty_true_iff _).mp hcv
      constructor
      · intro h
        by_cases hph : env.writeFails Artifact.pageHtml <;>
        by_cases hsc : env.writeFails Artifact.screenshot <;>
          simp [setupEvs, pulseEvs, okWriteEvs, hcv, hph, hsc] at h <;>
          rcases pollResult_evs env _ h with ⟨k, hk⟩ <;> simp at hk
      · intro h
        exact absurd hnil h
    · have hf : (canvasOf env).isEmpty = false := by
        cases hq : (canvasOf env).isEmpty with
        | false => rfl
        | true => exact absurd hq hcv
      have hne : canvasOf env ≠ [] := (isEmpty_false_iff _).mp hf
      constructor
      · intro _
        exact hne
      · intro _
        have hx : Ev.write Artifact.canvasText ∈ okWriteEvs env := by
          simp [okWriteEvs, hf]
        simp [List.mem_append]
        tauto
  · have hx : Ev.write Artifact.storageLocal ∈ okWriteEvs env := by
      simp [okWriteEvs]
    simp [List.mem_append]
    tauto
  · have hx : Ev.write Artifact.storageSession ∈ okWriteEvs env := by
      simp [okWriteEvs]
    simp [List.mem_append]
    tauto

/-- An environment that captured canvas text and completes without an
unhandled error despite its guarded page-markup write failing. -/
def envC9w : Env :=
  { baseEnv with
    canvasSnap := [cvX]
    writeFails := fun a => decide (a = Artifact.pageHtml) }

/-- Witness for the amended C9 at a concrete session with canvas text whose
guarded page-markup write fails. -/
theorem c9_witness :
    envC9w.gotoRaises = false ∧
    (∀ a, a ≠ Artifact.pageHtml → a ≠ Artifact.screenshot →
      envC9w.writeFails a = false) ∧
    envC9w.traceStopRaises = false ∧
    ((Ev.write Artifact.canvasText ∈ (runMain envC9w).events ↔
        canvasOf envC9w ≠ []) ∧
    Ev.write Artifact.storageLocal ∈ (runMain envC9w).events ∧
    Ev.write Artifact.storageSession ∈ (runMain envC9w).events) :=
  ⟨rfl, fun _ h1 _ => decide_eq_false h1, rfl,
   c9_amended_canvas_artifact_conditional envC9w rfl
     (fun _ h1 _ => decide_eq_false h1) rfl⟩
